import Mathlib

/-!
Shallow embedding of the DailyBudgetMart backend (`src/main.py`, `src/schemas.py`):
the entity records, the order-creation workflow (`create_order`), the product
listing endpoint (`list_products`) and the theme endpoint (`get_theme`), together
with theorems checking the specification's claims about them.

Modelling conventions:
* Monetary values, which the Python code holds as floats, are modelled as exact
  rationals; the numeric literals exercised below are exactly representable
  either way.
* Python's `round(x, 2)` is modelled by `round2`, rounding `x * 100` to the
  nearest integer.  Python rounds half to even while `round` on `ℚ` rounds half
  up; the two agree except at exact half-cent ties, which no statement below
  exercises.
* The MongoDB document store is external to the repository and is modelled at
  its interface: a collection is an association list from document id to
  document, `find_one` returns the first match, `update_one` updates the first
  match, `insert` appends.  The `$regex`-with-`$options: "i"` filter used by
  `list_products` is modelled by `mongo_regex_match_i` for the pattern fragment
  consisting of literal characters and the `.` wildcard.
* Exceptions (`HTTPException`) are modelled with `Except`; in `create_order`
  every store write happens after the last possible raise, so a raised error
  leaves the modelled state untouched, as in the Python code.
-/

namespace DBM

/-- A valid BSON ObjectId string: 24 hexadecimal characters.  `oid` in
`src/main.py` wraps `bson.ObjectId` and raises "Invalid id format" on anything
else. -/
def isValidOid (s : String) : Bool :=
  s.length == 24 &&
    s.data.all (fun c =>
      c.isDigit || (decide ('a' ≤ c) && decide (c ≤ 'f')) ||
        (decide ('A' ≤ c) && decide (c ≤ 'F')))

/-- Product document (`schemas.Product`). -/
structure Product where
  tenant_id : String
  title : String
  description : Option String := none
  price : ℚ
  image : Option String := none
  stock : Int := 0
  category : Option String := none
  is_active : Bool := true
deriving DecidableEq, Repr

/-- Coupon document (`schemas.Coupon`). -/
structure Coupon where
  tenant_id : String
  code : String
  percent_off : Option ℚ := none
  amount_off : Option ℚ := none
  active : Bool := true
  max_redemptions : Option Int := none
  times_redeemed : Int := 0
deriving DecidableEq, Repr

/-- Normalized order line (`schemas.OrderItem`); `price` and `title` are
snapshots taken from the product at order time. -/
structure OrderItem where
  product_id : String
  quantity : Int
  price : ℚ
  title : Option String := none
deriving DecidableEq, Repr

/-- Order document (`schemas.Order`). -/
structure Order where
  tenant_id : String
  customer_id : Option String := none
  customer_name : Option String := none
  customer_email : Option String := none
  items : List OrderItem
  total : ℚ
  status : String := "pending"
deriving DecidableEq, Repr

/-- Theme settings document (`schemas.ThemeSettings`), with the schema's
default field values. -/
structure ThemeSettings where
  tenant_id : String
  primary_color : String := "#34d399"
  hero_heading : String := "Shop smart. Save more."
  hero_subtext : String := "Daily deals across every category."
  logo_url : Option String := none
  featured_categories : List String := []
deriving DecidableEq, Repr

/-- The slice of the document store read or written by the endpoints modelled
here.  Tenant documents are only ever tested for existence by id, so the
tenant collection is kept as its list of ids. -/
structure State where
  tenants : List String
  products : List (String × Product)
  coupons : List (String × Coupon)
  orders : List Order
deriving DecidableEq, Repr

/-- One entry of the `items` list of a `POST /api/orders` payload: a JSON
object read with `item.get("product_id")` and `item.get("quantity", 1)`. -/
structure CreateOrderItem where
  product_id : Option String := none
  quantity : Option Int := none
deriving DecidableEq, Repr

/-- Request body of `POST /api/orders` (`main.CreateOrder`). -/
structure CreateOrder where
  tenant_id : String
  items : List CreateOrderItem
  customer_name : Option String := none
  customer_email : Option String := none
  coupon_code : Option String := none
deriving DecidableEq, Repr

/-- The `HTTPException`s that `create_order` can raise. -/
inductive OrderError where
  | invalidIdFormat
  | tenantNotFound
  | invalidItem
  | productNotFound
  | insufficientStock (title : String)
  | invalidCoupon
deriving DecidableEq, Repr

/-- Response body of a successful `POST /api/orders`; the inserted order's id
is modelled as its index in the order collection. -/
structure OrderResponse where
  id : Nat
  total : ℚ
  subtotal : ℚ
  discount : ℚ
deriving DecidableEq, Repr

deriving instance DecidableEq for Except

/-- Python's `round(x, 2)` on the modelled rationals. -/
def round2 (x : ℚ) : ℚ :=
  ((round (x * 100) : ℤ) : ℚ) / 100

/-- The store's `find_one` on the product collection with filter
`_id = pid, tenant_id = tid`. -/
def find_product (st : State) (pid tid : String) : Option Product :=
  (st.products.find? (fun pr => pr.1 == pid && pr.2.tenant_id == tid)).map Prod.snd

/-- The store's `find_one` on the coupon collection with filter
`tenant_id = tid, code = code, active = true`. -/
def find_coupon (st : State) (tid code : String) : Option (String × Coupon) :=
  st.coupons.find? (fun c => c.2.tenant_id == tid && c.2.code == code && c.2.active)

/-- The store's `update_one` on the coupon collection by `_id`: rewrites the
first document with the given id. -/
def update_coupon_first (coupons : List (String × Coupon)) (cid : String)
    (f : Coupon → Coupon) : List (String × Coupon) :=
  match coupons with
  | [] => []
  | (i, c) :: rest =>
    if i = cid then (i, f c) :: rest else (i, c) :: update_coupon_first rest cid f

/-- The store's `update_one` on the product collection by `_id`: rewrites the
first document with the given id. -/
def update_product_first (products : List (String × Product)) (pid : String)
    (f : Product → Product) : List (String × Product) :=
  match products with
  | [] => []
  | (i, p) :: rest =>
    if i = pid then (i, f p) :: rest else (i, p) :: update_product_first rest pid f

/-- The validation loop of `create_order` (src/main.py lines 287-304): for each
item, in input order, check `product_id` presence (Python truthiness, so an
empty string is also rejected), positive quantity (defaulting to 1 when the
field is absent), id format, product existence for the tenant, and stock
availability against the product's current stock; accumulate the subtotal and
the normalized items with snapshotted price and title. -/
def processItems (st : State) (tid : String) :
    List CreateOrderItem → Except OrderError (ℚ × List OrderItem)
  | [] => .ok (0, [])
  | item :: rest =>
    let qty : Int := item.quantity.getD 1
    match item.product_id with
    | none => .error .invalidItem
    | some pid =>
      if pid = "" ∨ qty ≤ 0 then .error .invalidItem
      else if ¬ isValidOid pid then .error .invalidIdFormat
      else
        match find_product st pid tid with
        | none => .error .productNotFound
        | some product =>
          if product.stock < qty then .error (.insufficientStock product.title)
          else
            match processItems st tid rest with
            | .error e => .error e
            | .ok (sub, items) =>
              .ok (product.price * (qty : ℚ) + sub,
                { product_id := pid, quantity := qty, price := product.price,
                  title := some product.title } :: items)

/-- The error, if any, that the validation loop raises on a single item; used
to state which item of a request fails validation. -/
def itemError (st : State) (tid : String) (item : CreateOrderItem) : Option OrderError :=
  let qty : Int := item.quantity.getD 1
  match item.product_id with
  | none => some .invalidItem
  | some pid =>
    if pid = "" ∨ qty ≤ 0 then some .invalidItem
    else if ¬ isValidOid pid then some .invalidIdFormat
    else
      match find_product st pid tid with
      | none => some .productNotFound
      | some product =>
        if product.stock < qty then some (.insufficientStock product.title) else none

/-- The coupon step of `create_order` (src/main.py lines 306-319): a falsy
(absent or empty) `coupon_code` applies no coupon; otherwise the first active
matching coupon of the tenant is applied - a missing one raises
`Invalid coupon code`.  Following the Python truthiness tests
`if c.get("percent_off")` and `if c.get("amount_off")`, a field that is unset
or zero contributes nothing; the two contributions add.  The matched coupon's
`times_redeemed` is incremented by `update_one` as a side effect.  Returns the
discount, the applied coupon's code, and the updated coupon collection. -/
def applyCoupon (st : State) (tid : String) (coupon_code : Option String)
    (subtotal : ℚ) : Except OrderError (ℚ × Option String × List (String × Coupon)) :=
  match coupon_code with
  | none => .ok (0, none, st.coupons)
  | some cc =>
    if cc = "" then .ok (0, none, st.coupons)
    else
      match find_coupon st tid cc with
      | none => .error .invalidCoupon
      | some (cid, c) =>
        let d1 : ℚ :=
          match c.percent_off with
          | some p => if p ≠ 0 then subtotal * (p / 100) else 0
          | none => 0
        let d2 : ℚ :=
          match c.amount_off with
          | some a => if a ≠ 0 then a else 0
          | none => 0
        .ok (d1 + d2, some c.code,
          update_coupon_first st.coupons cid
            (fun cp => { cp with times_redeemed := cp.times_redeemed + 1 }))

/-- The stock-decrement loop of `create_order` (src/main.py lines 332-334):
for each normalized item, in order, decrement the stock of the product with
that id by the ordered quantity (an `$inc` by `-quantity`, filtered by `_id`
only, with no lower bound). -/
def decrement_stock (products : List (String × Product)) :
    List OrderItem → List (String × Product)
  | [] => products
  | it :: rest =>
    decrement_stock
      (update_product_first products it.product_id
        (fun p => { p with stock := p.stock - it.quantity })) rest

/-- The `POST /api/orders` handler (`create_order`, src/main.py lines 278-339):
validate the tenant id, run the validation loop over all items, apply the
optional coupon, clamp `total = max(0, subtotal - discount)`, persist the
order with the total rounded to 2 decimals, decrement stock, and answer with
the rounded total, subtotal and discount.  (The webhook dispatch of line 337
has no effect on the store and is not modelled.) -/
def create_order (st : State) (p : CreateOrder) :
    Except OrderError (State × OrderResponse) :=
  if ¬ isValidOid p.tenant_id then .error .invalidIdFormat
  else if ¬ st.tenants.contains p.tenant_id then .error .tenantNotFound
  else
    match processItems st p.tenant_id p.items with
    | .error e => .error e
    | .ok (subtotal, normalized_items) =>
      match applyCoupon st p.tenant_id p.coupon_code subtotal with
      | .error e => .error e
      | .ok (discount, _applied_coupon, coupons2) =>
        let total : ℚ := max 0 (subtotal - discount)
        let order : Order :=
          { tenant_id := p.tenant_id, customer_name := p.customer_name,
            customer_email := p.customer_email, items := normalized_items,
            total := round2 total }
        let st2 : State :=
          { st with coupons := coupons2, orders := st.orders ++ [order],
                    products := decrement_stock st.products normalized_items }
        .ok (st2,
          { id := st.orders.length, total := order.total,
            subtotal := round2 subtotal, discount := round2 discount })

/-- The store state after a `POST /api/orders` request: the updated state on
success, the unchanged state when an `HTTPException` was raised (in the Python
handler every store write happens after the last possible raise). -/
def finalState (st : State) (p : CreateOrder) : State :=
  match create_order st p with
  | .ok (st2, _) => st2
  | .error _ => st

/-- Lookup of a document by id in the product collection. -/
def product_doc (products : List (String × Product)) (pid : String) : Option Product :=
  (products.find? (fun x => x.1 == pid)).map Prod.snd

/-- Lookup of a document by id in the coupon collection. -/
def coupon_doc (coupons : List (String × Coupon)) (cid : String) : Option Coupon :=
  (coupons.find? (fun x => x.1 == cid)).map Prod.snd

/-- The `GET /api/theme` handler (`get_theme`, src/main.py lines 132-138): the
tenant's stored theme document if one exists, otherwise a fresh
`ThemeSettings` carrying the schema defaults.  The handler is total: it raises
nothing. -/
def get_theme (themes : List ThemeSettings) (tenant_id : String) : ThemeSettings :=
  match themes.find? (fun t => t.tenant_id == tenant_id) with
  | none => { tenant_id := tenant_id }
  | some doc => doc

/-- A token of the modelled regex fragment: a literal character or the `.`
wildcard. -/
inductive Tok where
  | lit (c : Char)
  | dot
deriving DecidableEq, Repr

/-- Read a pattern string as tokens of the modelled fragment: `.` becomes the
wildcard, every other character a literal. -/
def parseToks (pattern : List Char) : List Tok :=
  pattern.map (fun c => if c = '.' then Tok.dot else Tok.lit c)

/-- Whether a token matches one character. -/
def tokMatches : Tok → Char → Bool
  | Tok.lit c, d => c == d
  | Tok.dot, _ => true

/-- Whether the token list matches a prefix of the character list. -/
def matchHere : List Tok → List Char → Bool
  | [], _ => true
  | _ :: _, [] => false
  | t :: ts, c :: cs => tokMatches t c && matchHere ts cs

/-- Whether the token list matches anywhere in the character list (regex
search is unanchored). -/
def regexSearch (toks : List Tok) : List Char → Bool
  | [] => matchHere toks []
  | c :: cs => matchHere toks (c :: cs) || regexSearch toks cs

/-- Models the external document store's evaluation of the filter
`title: $regex pattern, $options "i"` built by `list_products`: an unanchored,
case-insensitive regex search of `pattern` in `s`.  Case-insensitivity is
modelled by case-folding both sides.  Only patterns made of literal characters
and the `.` wildcard are modelled faithfully; no statement below evaluates the
model on a pattern using any other regex metacharacter. -/
def mongo_regex_match_i (pattern s : String) : Bool :=
  regexSearch (parseToks pattern.toLower.data) s.toLower.data

/-- The filter document built by `list_products`: `tenant_id` always, plus the
case-insensitive title regex when `q` is truthy (present and non-empty). -/
def product_filter (tenant_id : String) (q : Option String)
    (pr : String × Product) : Bool :=
  pr.2.tenant_id == tenant_id &&
    (match q with
     | none => true
     | some qs => if qs = "" then true else mongo_regex_match_i qs pr.2.title)

/-- The `GET /api/products` handler (`list_products`, src/main.py lines
158-166): filter the product collection by tenant and optional title query and
cap the result at `limit` documents. -/
def list_products (products : List (String × Product)) (tenant_id : String)
    (q : Option String) (limit : Nat) : List (String × Product) :=
  (products.filter (product_filter tenant_id q)).take limit

/-- Case-insensitive substring containment, the relation the specification
describes for product title queries: the case-folded needle occurs contiguously
in the case-folded haystack. -/
def containsCI (haystack needle : String) : Prop :=
  needle.toLower.data <:+: haystack.toLower.data

/-- A pattern within the modelled fragment that case-folds to literal tokens
only, i.e. uses no regex metacharacter. -/
def literalPattern (q : String) : Bool :=
  q.toLower.data.all (fun c => decide (c ≠ '.'))

instance (h n : String) : Decidable (containsCI h n) :=
  List.decidableInfix n.toLower.data h.toLower.data

/-- The validation loop raises exactly the error of the first item that fails
a validation check; it succeeds exactly when every item passes. -/
lemma processItems_error_iff (st : State) (tid : String) :
    ∀ (items : List CreateOrderItem) (e : OrderError),
      processItems st tid items = .error e ↔
        items.findSome? (itemError st tid) = some e := by
  intro items
  induction items with
  | nil =>
    intro e
    simp [processItems]
  | cons item rest ih =>
    intro e
    rw [List.findSome?_cons]
    cases hpid : item.product_id with
    | none =>
      simp [processItems, itemError, hpid]
    | some pid =>
      by_cases h1 : pid = "" ∨ item.quantity.getD 1 ≤ 0
      · simp [processItems, itemError, hpid, h1]
      · by_cases h2 : isValidOid pid
        · cases hfp : find_product st pid tid with
          | none =>
            simp [processItems, itemError, hpid, h1, h2, hfp]
          | some product =>
            by_cases h3 : product.stock < item.quantity.getD 1
            · simp [processItems, itemError, hpid, h1, h2, hfp, h3]
            · cases hrest : processItems st tid rest with
              | error e2 =>
                have := (ih e2).mp hrest
                simp [processItems, itemError, hpid, h1, h2, hfp, h3, hrest, this, ih]
              | ok res =>
                have hnone : rest.findSome? (itemError st tid) = none := by
                  cases hfs : rest.findSome? (itemError st tid) with
                  | none => rfl
                  | some e3 =>
                    rw [← ih e3] at hfs
                    rw [hfs] at hrest
                    cases hrest
                simp [processItems, itemError, hpid, h1, h2, hfp, h3, hrest, hnone]
        · simp [processItems, itemError, hpid, h1, h2]

/-- Rounding a non-negative amount to two decimals yields a non-negative
amount. -/
lemma round2_nonneg (x : ℚ) (hx : 0 ≤ x) : 0 ≤ round2 x := by
  unfold round2
  have h1 : (0 : ℤ) ≤ round (x * 100) := by
    rw [round_eq]
    apply Int.floor_nonneg.mpr
    have : (0 : ℚ) ≤ x * 100 := by positivity
    linarith
  have h2 : (0 : ℚ) ≤ ((round (x * 100) : ℤ) : ℚ) := by exact_mod_cast h1
  positivity

/-- Updating a coupon by id rewrites exactly the document that a lookup by
that id returns. -/
lemma coupon_doc_update_first (cps : List (String × Coupon)) (cid : String)
    (f : Coupon → Coupon) :
    coupon_doc (update_coupon_first cps cid f) cid = (coupon_doc cps cid).map f := by
  induction cps with
  | nil => simp [coupon_doc, update_coupon_first]
  | cons hd tl ih =>
    obtain ⟨i, c⟩ := hd
    by_cases h : i = cid
    · simp [coupon_doc, update_coupon_first, h]
    · simp only [coupon_doc, update_coupon_first, if_neg h] at ih ⊢
      simp [List.find?_cons, h, ih]

/-- Updating a coupon by id leaves lookups of every other id unchanged. -/
lemma coupon_doc_update_first_ne (cps : List (String × Coupon)) (cid cid2 : String)
    (f : Coupon → Coupon) (h : cid2 ≠ cid) :
    coupon_doc (update_coupon_first cps cid f) cid2 = coupon_doc cps cid2 := by
  induction cps with
  | nil => simp [coupon_doc, update_coupon_first]
  | cons hd tl ih =>
    obtain ⟨i, c⟩ := hd
    by_cases hi : i = cid
    · have hbe : ¬ (i == cid2) = true := by
        simp only [beq_iff_eq]
        intro hic
        exact h (by rw [← hic, hi])
      simp [coupon_doc, update_coupon_first, if_pos hi, List.find?_cons, hbe]
    · by_cases h2 : (i == cid2) = true
      · simp [coupon_doc, update_coupon_first, if_neg hi, List.find?_cons, h2]
      · simp only [coupon_doc] at ih
        simp [coupon_doc, update_coupon_first, if_neg hi, List.find?_cons, h2, ih]

/-- With unique document ids, looking a member document up by its id returns
that document. -/
lemma coupon_doc_of_mem_nodup (cps : List (String × Coupon)) (cid : String)
    (c : Coupon) (hmem : (cid, c) ∈ cps) (hnd : (cps.map Prod.fst).Nodup) :
    coupon_doc cps cid = some c := by
  induction cps with
  | nil => cases hmem
  | cons hd tl ih =>
    obtain ⟨i, d⟩ := hd
    simp only [List.map_cons, List.nodup_cons] at hnd
    rcases List.mem_cons.mp hmem with heq | htl
    · injection heq with h1 h2
      subst h1
      subst h2
      simp [coupon_doc, List.find?_cons]
    · by_cases hi : i = cid
      · exfalso
        apply hnd.1
        subst hi
        exact List.mem_map.mpr ⟨(i, c), htl, rfl⟩
      · have hbe : ¬ (i == cid) = true := by simpa using hi
        simp only [coupon_doc, List.find?_cons, hbe, if_false, Bool.false_eq_true]
        exact ih htl hnd.2

/-- A token list of literals matches the head of a character list exactly when
the literal characters are a prefix of it. -/
lemma matchHere_lit_eq (l : List Char) :
    ∀ cs : List Char, matchHere (l.map Tok.lit) cs = true ↔ l <+: cs := by
  induction l with
  | nil => intro cs; simp [matchHere]
  | cons a as ih =>
    intro cs
    cases cs with
    | nil => simp [matchHere]
    | cons b bs =>
      simp only [List.map_cons, matchHere, tokMatches, Bool.and_eq_true,
        beq_iff_eq, ih, List.cons_prefix_cons]

/-- A token list of literals is found somewhere in a character list exactly
when the literal characters occur contiguously in it. -/
lemma regexSearch_lit_eq (l : List Char) :
    ∀ cs : List Char, regexSearch (l.map Tok.lit) cs = true ↔ l <:+: cs := by
  intro cs
  induction cs with
  | nil => simp [regexSearch, matchHere_lit_eq, List.infix_nil, List.prefix_nil]
  | cons b bs ih => simp [regexSearch, matchHere_lit_eq, ih, List.infix_cons_iff]

/-- A metacharacter-free pattern reads as literal tokens. -/
lemma parseToks_of_literal (l : List Char)
    (h : l.all (fun c => decide (c ≠ '.')) = true) :
    parseToks l = l.map Tok.lit := by
  induction l with
  | nil => rfl
  | cons c cs ih =>
    simp only [List.all_cons, Bool.and_eq_true, decide_eq_true_eq] at h
    simp only [parseToks, List.map_cons, if_neg h.1]
    have := ih (by simpa using h.2)
    simpa [parseToks] using this

/-- On a metacharacter-free pattern the modelled store regex match is exactly
case-insensitive substring containment. -/
lemma mongo_regex_literal (q s : String) (h : literalPattern q = true) :
    mongo_regex_match_i q s = true ↔ containsCI s q := by
  unfold mongo_regex_match_i containsCI
  rw [parseToks_of_literal _ h, regexSearch_lit_eq]

/-- A tenant id used by the concrete examples below (a valid ObjectId). -/
def tA : String := "aaaaaaaaaaaaaaaaaaaaaaaa"

/-- A product id used by the concrete examples below (a valid ObjectId). -/
def pB : String := "bbbbbbbbbbbbbbbbbbbbbbbb"

/-- A coupon id used by the concrete examples below (a valid ObjectId). -/
def cC : String := "cccccccccccccccccccccccc"

/-- Store with one product of stock 1, for the duplicate-item example. -/
def c1_state : State :=
  { tenants := [tA],
    products := [(pB, { tenant_id := tA, title := "Gadget", price := 5, stock := 1 })],
    coupons := [], orders := [] }

/-- An order request naming the same product twice, quantity 1 each. -/
def c1_payload : CreateOrder :=
  { tenant_id := tA,
    items := [{ product_id := some pB, quantity := some 1 },
              { product_id := some pB, quantity := some 1 }] }

/-- C1: the claim says that whenever every referenced product has non-negative
stock beforehand and the request succeeds, no stock is negative afterwards,
explicitly including items lists that repeat a product_id.  The code violates
this: each item of `c1_payload` is checked against the same unmodified stock
of 1, both pass, the order succeeds, and the two decrements drive the stock of
product `pB` from 1 to -1 - contradicting the schema constraint `stock ≥ 0`
and the spec's invariant. -/
theorem c1_duplicate_product_id_negative_stock :
    (product_doc c1_state.products pB).map Product.stock = some 1 ∧
    (create_order c1_state c1_payload).toOption.isSome = true ∧
    (product_doc (finalState c1_state c1_payload).products pB).map Product.stock
      = some (-1) := by
  refine ⟨by decide, by decide, by decide⟩

/-- C2: when some item of an order request fails a validation check (missing
or empty product_id, quantity ≤ 0, malformed id, product not found for the
tenant, or stock < quantity), the request fails with the error of the first
failing item and the store is left untouched: no order document, no stock
change, no coupon change - the validation loop runs to completion before any
persistence or stock mutation begins. -/
theorem c2_item_validation_failure_no_mutation :
    ∀ (st : State) (p : CreateOrder) (e : OrderError),
      isValidOid p.tenant_id = true →
      st.tenants.contains p.tenant_id = true →
      p.items.findSome? (itemError st p.tenant_id) = some e →
      create_order st p = .error e ∧ finalState st p = st := by
  intro st p e hv ht hfind
  have hproc : processItems st p.tenant_id p.items = .error e :=
    (processItems_error_iff st p.tenant_id p.items e).mpr hfind
  have hmem : p.tenant_id ∈ st.tenants := by
    simpa using ht
  have hco : create_order st p = .error e := by
    simp [create_order, hv, hmem, hproc]
  exact ⟨hco, by simp [finalState, hco]⟩

/-- Store with one product of stock 1, for the insufficient-stock example. -/
def c2_wstate : State :=
  { tenants := [tA],
    products := [(pB, { tenant_id := tA, title := "Widget", price := 100, stock := 1 })],
    coupons := [], orders := [] }

/-- An order request asking for quantity 5 of the stock-1 product. -/
def c2_wpayload : CreateOrder :=
  { tenant_id := tA, items := [{ product_id := some pB, quantity := some 5 }] }

/-- Witness for C2: asking for 5 units of a product with stock 1 fails with
the insufficient-stock error naming the product, and the store is unchanged. -/
theorem c2_witness :
    create_order c2_wstate c2_wpayload = .error (.insufficientStock "Widget") ∧
    finalState c2_wstate c2_wpayload = c2_wstate :=
  c2_item_validation_failure_no_mutation c2_wstate c2_wpayload
    (.insufficientStock "Widget") (by decide) (by decide) (by decide)

/-- C9: the theme `get` endpoint is total - it never raises.  For a tenant
without a stored document it returns the documented defaults (primary color
"#34d399", hero heading "Shop smart. Save more.", hero subtext "Daily deals
across every category.", no logo, empty featured categories); for a tenant
with a stored document it returns that document. -/
theorem c9_theme_defaults :
    ∀ (themes : List ThemeSettings) (tid : String),
      (themes.find? (fun t => t.tenant_id == tid) = none →
        get_theme themes tid =
          { tenant_id := tid, primary_color := "#34d399",
            hero_heading := "Shop smart. Save more.",
            hero_subtext := "Daily deals across every category.",
            logo_url := none, featured_categories := [] })
      ∧ (∀ doc, themes.find? (fun t => t.tenant_id == tid) = some doc →
          get_theme themes tid = doc) := by
  intro themes tid
  constructor
  · intro h
    simp [get_theme, h]
  · intro doc h
    simp [get_theme, h]

/-- A stored theme document used by the C9 witness. -/
def c9_wdoc : ThemeSettings :=
  { tenant_id := "t1", primary_color := "#000000", hero_heading := "H",
    hero_subtext := "S", logo_url := some "x.png", featured_categories := ["a"] }

/-- Witness for C9: an empty theme collection yields the defaults, and a
stored document is returned as is. -/
theorem c9_witness :
    (get_theme [] "t1" =
      { tenant_id := "t1", primary_color := "#34d399",
        hero_heading := "Shop smart. Save more.",
        hero_subtext := "Daily deals across every category.",
        logo_url := none, featured_categories := [] }) ∧
    get_theme [c9_wdoc] "t1" = c9_wdoc :=
  ⟨(c9_theme_defaults [] "t1").1 (by decide),
   (c9_theme_defaults [c9_wdoc] "t1").2 c9_wdoc (by decide)⟩

/-- Rewrite of an order item that replaces an absent quantity by the explicit
quantity 1, the default that `item.get("quantity", 1)` supplies. -/
def normalize_item_quantity (it : CreateOrderItem) : CreateOrderItem :=
  { it with quantity := some (it.quantity.getD 1) }

/-- The validation loop treats an absent quantity exactly as the explicit
quantity 1. -/
lemma processItems_normalize (st : State) (tid : String) :
    ∀ items, processItems st tid (items.map normalize_item_quantity)
      = processItems st tid items := by
  intro items
  induction items with
  | nil => rfl
  | cons it rest ih =>
    simp only [List.map_cons]
    simp [processItems, normalize_item_quantity, ih]

/-- C10: an order item whose quantity field is absent is not rejected; it is
treated as having quantity 1 throughout - replacing every absent quantity by
an explicit 1 yields the very same result of `create_order` (same validation
outcome, same pricing, same persisted order, same stock decrement). -/
theorem c10_missing_quantity_defaults_to_one :
    ∀ (st : State) (p : CreateOrder),
      create_order st { p with items := p.items.map normalize_item_quantity }
        = create_order st p := by
  intro st p
  simp only [create_order]
  rw [processItems_normalize]

/-- Store with a 100-priced product and an active coupon whose `amount_off`
of 150 exceeds any one-unit subtotal. -/
def c3_state : State :=
  { tenants := [tA],
    products := [(pB, { tenant_id := tA, title := "Widget", price := 100, stock := 5 })],
    coupons := [(cC, { tenant_id := tA, code := "BIG", amount_off := some 150 })],
    orders := [] }

/-- An order of one unit with the oversized coupon applied. -/
def c3_payload : CreateOrder :=
  { tenant_id := tA,
    items := [{ product_id := some pB, quantity := some 1 }],
    coupon_code := some "BIG" }

/-- C3 counterexample: the claim says every successful order has
`total = round(subtotal - discount, 2)`.  On `c3_state`/`c3_payload` the
computed subtotal is 100 and the discount 150 (both reported rounded in the
response), the returned total is 0 because the code clamps at zero before
rounding, while `round(subtotal - discount, 2)` is -50; so the claimed
equation fails whenever the discount exceeds the subtotal. -/
theorem c3_counterexample_total_clamped :
    (create_order c3_state c3_payload).toOption.map
        (fun x => (x.2.subtotal, x.2.discount, x.2.total))
      = some (100, 150, 0) ∧
    round2 (100 - 150) = -50 ∧ (0 : ℚ) ≠ round2 (100 - 150) := by
  refine ⟨by with_unfolding_all decide, by with_unfolding_all decide,
    by with_unfolding_all decide⟩

/-- C3 (amended): for every successful order the returned total equals
`round(max(0, subtotal - discount), 2)` where subtotal is the sum of
snapshotted price × quantity over the items and discount the coupon discount
(0 when no coupon applies); the total is therefore non-negative, and it equals
`round(subtotal - discount, 2)` whenever the discount does not exceed the
subtotal. -/
theorem c3_total_eq_round_clamped_diff :
    ∀ (st : State) (p : CreateOrder) (st2 : State) (r : OrderResponse)
      (sub disc : ℚ) (items : List OrderItem) (ap : Option String)
      (cps : List (String × Coupon)),
      isValidOid p.tenant_id = true →
      st.tenants.contains p.tenant_id = true →
      processItems st p.tenant_id p.items = .ok (sub, items) →
      applyCoupon st p.tenant_id p.coupon_code sub = .ok (disc, ap, cps) →
      create_order st p = .ok (st2, r) →
      r.total = round2 (max 0 (sub - disc)) ∧ 0 ≤ r.total ∧
        (disc ≤ sub → r.total = round2 (sub - disc)) := by
  intro st p st2 r sub disc items ap cps hv ht hproc happ hco
  have hmem : p.tenant_id ∈ st.tenants := by simpa using ht
  simp [create_order, hv, hmem, hproc, happ] at hco
  obtain ⟨hst2, hr⟩ := hco
  subst hr
  refine ⟨by simp, ?_, ?_⟩
  · exact round2_nonneg _ (le_max_left 0 _)
  · intro h
    have : max 0 (sub - disc) = sub - disc := max_eq_right (sub_nonneg.mpr h)
    simp [this]

/-- Store with one 100-priced product, stock 5, no coupons. -/
def c3_wstate : State :=
  { tenants := [tA],
    products := [(pB, { tenant_id := tA, title := "Widget", price := 100, stock := 5 })],
    coupons := [], orders := [] }

/-- An order of two units, no coupon. -/
def c3_wpayload : CreateOrder :=
  { tenant_id := tA, items := [{ product_id := some pB, quantity := some 2 }] }

/-- The normalized items of the C3 witness order. -/
def c3_witems : List OrderItem :=
  [{ product_id := pB, quantity := 2, price := 100, title := some "Widget" }]

/-- The state after the C3 witness order: order persisted, stock 5 - 2 = 3. -/
def c3_wfinal : State :=
  { tenants := [tA],
    products := [(pB, { tenant_id := tA, title := "Widget", price := 100, stock := 3 })],
    coupons := [],
    orders := [{ tenant_id := tA, items := c3_witems, total := 200 }] }

/-- The response of the C3 witness order. -/
def c3_wresp : OrderResponse :=
  { id := 0, total := 200, subtotal := 200, discount := 0 }

/-- Witness for C3 (amended): a concrete successful order with subtotal 200
and discount 0 has total `round2 (max 0 (200 - 0))`, non-negative, equal to
`round2 (200 - 0)`. -/
theorem c3_witness :
    c3_wresp.total = round2 (max 0 (200 - 0)) ∧ 0 ≤ c3_wresp.total ∧
      ((0 : ℚ) ≤ 200 → c3_wresp.total = round2 (200 - 0)) :=
  c3_total_eq_round_clamped_diff c3_wstate c3_wpayload c3_wfinal c3_wresp
    200 0 c3_witems none []
    (by decide) (by decide) (by with_unfolding_all decide)
    (by with_unfolding_all decide) (by with_unfolding_all decide)

/-- C4: every successful order answers with `total = round2 (max 0 (subtotal -
discount))`, with the subtotal and discount fields of the response each
rounded to two decimals, and the order document appended to the order
collection carries exactly the returned total. -/
theorem c4_response_fields_rounded :
    ∀ (st : State) (p : CreateOrder) (st2 : State) (r : OrderResponse)
      (sub disc : ℚ) (items : List OrderItem) (ap : Option String)
      (cps : List (String × Coupon)),
      isValidOid p.tenant_id = true →
      st.tenants.contains p.tenant_id = true →
      processItems st p.tenant_id p.items = .ok (sub, items) →
      applyCoupon st p.tenant_id p.coupon_code sub = .ok (disc, ap, cps) →
      create_order st p = .ok (st2, r) →
      r.subtotal = round2 sub ∧ r.discount = round2 disc ∧
        r.total = round2 (max 0 (sub - disc)) ∧
        ∃ o, st2.orders = st.orders ++ [o] ∧ o.total = r.total := by
  intro st p st2 r sub disc items ap cps hv ht hproc happ hco
  have hmem : p.tenant_id ∈ st.tenants := by simpa using ht
  simp [create_order, hv, hmem, hproc, happ] at hco
  obtain ⟨hst2, hr⟩ := hco
  subst hr
  subst hst2
  refine ⟨by simp, by simp, by simp, ?_⟩
  exact ⟨_, rfl, rfl⟩

/-- Store for the C4 witness: a 100-priced product and an active 10-percent
coupon. -/
def c4_wstate : State :=
  { tenants := [tA],
    products := [(pB, { tenant_id := tA, title := "Widget", price := 100, stock := 10 })],
    coupons := [(cC, { tenant_id := tA, code := "SAVE", percent_off := some 10 })],
    orders := [] }

/-- An order of one unit redeeming coupon SAVE. -/
def c4_wpayload : CreateOrder :=
  { tenant_id := tA,
    items := [{ product_id := some pB, quantity := some 1 }],
    coupon_code := some "SAVE" }

/-- The normalized items of the C4 witness order. -/
def c4_witems : List OrderItem :=
  [{ product_id := pB, quantity := 1, price := 100, title := some "Widget" }]

/-- The coupon collection after the C4 witness order (counter incremented). -/
def c4_wcoupons : List (String × Coupon) :=
  [(cC, { tenant_id := tA, code := "SAVE", percent_off := some 10, times_redeemed := 1 })]

/-- The state after the C4 witness order. -/
def c4_wfinal : State :=
  { tenants := [tA],
    products := [(pB, { tenant_id := tA, title := "Widget", price := 100, stock := 9 })],
    coupons := c4_wcoupons,
    orders := [{ tenant_id := tA, items := c4_witems, total := 90 }] }

/-- The response of the C4 witness order. -/
def c4_wresp : OrderResponse :=
  { id := 0, total := 90, subtotal := 100, discount := 10 }

/-- Witness for C4: the concrete couponed order answers subtotal 100,
discount 10, total 90 = round2 (max 0 (100 - 10)), and the persisted order
carries total 90. -/
theorem c4_witness :
    c4_wresp.subtotal = round2 100 ∧ c4_wresp.discount = round2 10 ∧
      c4_wresp.total = round2 (max 0 (100 - 10)) ∧
      ∃ o, c4_wfinal.orders = c4_wstate.orders ++ [o] ∧ o.total = c4_wresp.total :=
  c4_response_fields_rounded c4_wstate c4_wpayload c4_wfinal c4_wresp
    100 10 c4_witems (some "SAVE") c4_wcoupons
    (by decide) (by decide) (by with_unfolding_all decide)
    (by with_unfolding_all decide) (by with_unfolding_all decide)

/-- C5: (a) every successful order that redeems a coupon increments exactly
that coupon's `times_redeemed` by 1 - under the store's invariant of unique
document ids, the matched coupon's document gains 1 and every other coupon
document is unchanged; (b) a request that fails item validation changes no
coupon at all, since the coupon step is only reached after the validation
loop completes. -/
theorem c5_coupon_redemption_counter :
    ∀ (st : State) (p : CreateOrder),
      (∀ (st2 : State) (r : OrderResponse) (cc cid : String) (c : Coupon),
        p.coupon_code = some cc → cc ≠ "" →
        find_coupon st p.tenant_id cc = some (cid, c) →
        (st.coupons.map Prod.fst).Nodup →
        create_order st p = .ok (st2, r) →
        coupon_doc st2.coupons cid
            = some { c with times_redeemed := c.times_redeemed + 1 } ∧
          ∀ cid2, cid2 ≠ cid →
            coupon_doc st2.coupons cid2 = coupon_doc st.coupons cid2)
      ∧ (∀ e, p.items.findSome? (itemError st p.tenant_id) = some e →
          (finalState st p).coupons = st.coupons) := by
  intro st p
  constructor
  · intro st2 r cc cid c hcc hne hfc hnd hco
    by_cases hv : isValidOid p.tenant_id
    case neg => simp [create_order, hv] at hco
    by_cases hmem : p.tenant_id ∈ st.tenants
    case neg => simp [create_order, hv, hmem] at hco
    cases hproc : processItems st p.tenant_id p.items with
    | error e => simp [create_order, hv, hmem, hproc] at hco
    | ok res =>
      obtain ⟨sub, items⟩ := res
      have happ : applyCoupon st p.tenant_id p.coupon_code sub = .ok
          ((match c.percent_off with
            | some q => if q ≠ 0 then sub * (q / 100) else 0
            | none => 0) +
           (match c.amount_off with
            | some a => if a ≠ 0 then a else 0
            | none => 0), some c.code,
           update_coupon_first st.coupons cid
             (fun cp => { cp with times_redeemed := cp.times_redeemed + 1 })) := by
        rw [hcc]
        simp [applyCoupon, hne, hfc]
      simp [create_order, hv, hmem, hproc, happ] at hco
      obtain ⟨hst2, hr⟩ := hco
      have hcoup2 : st2.coupons = update_coupon_first st.coupons cid
          (fun cp => { cp with times_redeemed := cp.times_redeemed + 1 }) := by
        rw [← hst2]
      constructor
      · rw [hcoup2, coupon_doc_update_first,
          coupon_doc_of_mem_nodup st.coupons cid c (List.mem_of_find?_eq_some hfc) hnd]
        rfl
      · intro cid2 hne2
        rw [hcoup2]
        exact coupon_doc_update_first_ne st.coupons cid cid2 _ hne2
  · intro e hfind
    have hproc := (processItems_error_iff st p.tenant_id p.items e).mpr hfind
    by_cases hv : isValidOid p.tenant_id
    · by_cases hmem : p.tenant_id ∈ st.tenants
      · have hco : create_order st p = .error e := by
          simp [create_order, hv, hmem, hproc]
        simp [finalState, hco]
      · have hco : create_order st p = .error .tenantNotFound := by
          simp [create_order, hv, hmem]
        simp [finalState, hco]
    · have hco : create_order st p = .error .invalidIdFormat := by
        simp [create_order, hv]
      simp [finalState, hco]

/-- Witness for C5: the concrete couponed order of the C4 fixtures bumps
coupon `cC` from 0 to 1 redemptions and touches no other coupon id, and the
concrete under-stocked request of the C2 fixtures leaves the (empty) coupon
collection unchanged. -/
theorem c5_witness :
    (coupon_doc c4_wfinal.coupons cC
        = some { tenant_id := tA, code := "SAVE", percent_off := some 10,
                 times_redeemed := 1 } ∧
      ∀ cid2, cid2 ≠ cC →
        coupon_doc c4_wfinal.coupons cid2 = coupon_doc c4_wstate.coupons cid2) ∧
    (finalState c2_wstate c2_wpayload).coupons = c2_wstate.coupons :=
  ⟨(c5_coupon_redemption_counter c4_wstate c4_wpayload).1 c4_wfinal c4_wresp
      "SAVE" cC { tenant_id := tA, code := "SAVE", percent_off := some 10 }
      rfl (by decide) (by with_unfolding_all decide) (by decide)
      (by with_unfolding_all decide),
   (c5_coupon_redemption_counter c2_wstate c2_wpayload).2
      (.insufficientStock "Widget") (by decide)⟩

/-- Store with a 100-priced product and an active coupon with the given
percent and amount fields, for the C6 examples. -/
def c6_state (po ao : Option ℚ) : State :=
  { tenants := [tA],
    products := [(pB, { tenant_id := tA, title := "Widget", price := 100, stock := 10 })],
    coupons := [(cC, { tenant_id := tA, code := "SAVE", percent_off := po, amount_off := ao })],
    orders := [] }

/-- An order of one unit redeeming coupon SAVE, for the C6 examples. -/
def c6_payload : CreateOrder :=
  { tenant_id := tA,
    items := [{ product_id := some pB, quantity := some 1 }],
    coupon_code := some "SAVE" }

/-- C6: the discount of an applied coupon is the sum of its percentage
contribution `subtotal * percent_off / 100` (0 when the field is unset, and
equally 0 through the code's truthiness test when it is set to 0) and its
fixed contribution `amount_off` (likewise) - the two are additive.  In
particular, on a subtotal of 100: percent_off 10 gives discount 10 and total
90; amount_off 15 gives discount 15 and total 85; percent_off 10 together
with amount_off 5 gives discount 15 and total 85. -/
theorem c6_discount_additive :
    (∀ (st : State) (tid cc : String) (sub disc : ℚ) (ap : Option String)
       (cps : List (String × Coupon)) (cid : String) (c : Coupon),
       cc ≠ "" → find_coupon st tid cc = some (cid, c) →
       applyCoupon st tid (some cc) sub = .ok (disc, ap, cps) →
       disc = (match c.percent_off with
               | some p => sub * (p / 100)
               | none => 0) +
              (match c.amount_off with
               | some a => a
               | none => 0))
    ∧ ((create_order (c6_state (some 10) none) c6_payload).toOption.map
         (fun x => (x.2.discount, x.2.total)) = some (10, 90))
    ∧ ((create_order (c6_state none (some 15)) c6_payload).toOption.map
         (fun x => (x.2.discount, x.2.total)) = some (15, 85))
    ∧ ((create_order (c6_state (some 10) (some 5)) c6_payload).toOption.map
         (fun x => (x.2.discount, x.2.total)) = some (15, 85)) := by
  refine ⟨?_, by with_unfolding_all decide, by with_unfolding_all decide,
    by with_unfolding_all decide⟩
  intro st tid cc sub disc ap cps cid c hne hfc happ
  simp [applyCoupon, hne, hfc] at happ
  obtain ⟨h1, h2, h3⟩ := happ
  have e1 : (match c.percent_off with
      | some p => if p = 0 then 0 else sub * (p / 100)
      | none => (0 : ℚ)) = (match c.percent_off with
      | some p => sub * (p / 100)
      | none => 0) := by
    cases hp : c.percent_off with
    | none => rfl
    | some p =>
      by_cases hz : p = 0
      · subst hz
        simp
      · simp [hz]
  have e2 : (match c.amount_off with
      | some a => if a = 0 then 0 else a
      | none => (0 : ℚ)) = (match c.amount_off with
      | some a => a
      | none => 0) := by
    cases ha : c.amount_off with
    | none => rfl
    | some a =>
      by_cases hz : a = 0
      · subst hz
        simp
      · simp [hz]
  rw [← h1, e1, e2]

/-- Witness for C6 (general part): on the concrete store `c6_state (some 10)
(some 5)` the applied coupon with both fields set yields a discount of
10 + 5 = 15 on subtotal 100, matching the additive formula. -/
theorem c6_witness :
    (15 : ℚ) = (match (some (10 : ℚ) : Option ℚ) with
                | some p => (100 : ℚ) * (p / 100)
                | none => 0) +
               (match (some (5 : ℚ) : Option ℚ) with
                | some a => a
                | none => 0) :=
  (c6_discount_additive).1 (c6_state (some 10) (some 5)) tA "SAVE" 100 15
    (some "SAVE")
    [(cC, { tenant_id := tA, code := "SAVE", percent_off := some 10,
            amount_off := some 5, times_redeemed := 1 })]
    cC { tenant_id := tA, code := "SAVE", percent_off := some 10, amount_off := some 5 }
    (by decide) (by with_unfolding_all decide) (by with_unfolding_all decide)

/-- C7: the order path never reads `max_redemptions` or `times_redeemed`: for
every state and request whose items validate and whose coupon code matches an
active coupon of the tenant - with no constraint whatsoever relating the
coupon's `times_redeemed` to its `max_redemptions` - the order succeeds and
the coupon is applied (its redemption counter is incremented).  A coupon can
therefore be redeemed an unbounded number of times. -/
theorem c7_max_redemptions_not_enforced :
    ∀ (st : State) (p : CreateOrder) (cc cid : String) (c : Coupon)
      (sub : ℚ) (items : List OrderItem),
      isValidOid p.tenant_id = true →
      st.tenants.contains p.tenant_id = true →
      processItems st p.tenant_id p.items = .ok (sub, items) →
      p.coupon_code = some cc → cc ≠ "" →
      find_coupon st p.tenant_id cc = some (cid, c) →
      (create_order st p).toOption.map (fun x => x.1.coupons)
        = some (update_coupon_first st.coupons cid
            (fun cp => { cp with times_redeemed := cp.times_redeemed + 1 })) := by
  intro st p cc cid c sub items hv ht hproc hcc hne hfc
  have hmem : p.tenant_id ∈ st.tenants := by simpa using ht
  have happ : applyCoupon st p.tenant_id p.coupon_code sub = .ok
      ((match c.percent_off with
        | some q => if q ≠ 0 then sub * (q / 100) else 0
        | none => 0) +
       (match c.amount_off with
        | some a => if a ≠ 0 then a else 0
        | none => 0), some c.code,
       update_coupon_first st.coupons cid
         (fun cp => { cp with times_redeemed := cp.times_redeemed + 1 })) := by
    rw [hcc]
    simp [applyCoupon, hne, hfc]
  have hco : create_order st p = .ok
      ({ st with
          coupons := update_coupon_first st.coupons cid
            (fun cp => { cp with times_redeemed := cp.times_redeemed + 1 }),
          orders := st.orders ++
            [{ tenant_id := p.tenant_id, customer_name := p.customer_name,
               customer_email := p.customer_email, items := items,
               total := round2 (max 0 (sub -
                 ((match c.percent_off with
                   | some q => if q ≠ 0 then sub * (q / 100) else 0
                   | none => 0) +
                  (match c.amount_off with
                   | some a => if a ≠ 0 then a else 0
                   | none => 0)))) }],
          products := decrement_stock st.products items },
       { id := st.orders.length,
         total := round2 (max 0 (sub -
           ((match c.percent_off with
             | some q => if q ≠ 0 then sub * (q / 100) else 0
             | none => 0) +
            (match c.amount_off with
             | some a => if a ≠ 0 then a else 0
             | none => 0)))),
         subtotal := round2 sub,
         discount := round2
           ((match c.percent_off with
             | some q => if q ≠ 0 then sub * (q / 100) else 0
             | none => 0) +
            (match c.amount_off with
             | some a => if a ≠ 0 then a else 0
             | none => 0)) }) := by
    simp [create_order, hv, hmem, hproc, happ]
  rw [hco]
  rfl

/-- Store whose coupon has already been redeemed 5 times against a
`max_redemptions` of 1, for the C7 witness. -/
def c7_wstate : State :=
  { tenants := [tA],
    products := [(pB, { tenant_id := tA, title := "Widget", price := 100, stock := 10 })],
    coupons := [(cC, { tenant_id := tA, code := "SAVE", percent_off := some 10,
                       max_redemptions := some 1, times_redeemed := 5 })],
    orders := [] }

/-- The normalized items of the C7 witness order. -/
def c7_witems : List OrderItem :=
  [{ product_id := pB, quantity := 1, price := 100, title := some "Widget" }]

/-- Witness for C7: an order against a coupon already redeemed 5 times with
`max_redemptions` 1 still succeeds and bumps the counter to 6. -/
theorem c7_witness :
    (create_order c7_wstate c6_payload).toOption.map (fun x => x.1.coupons)
      = some (update_coupon_first c7_wstate.coupons cC
          (fun cp => { cp with times_redeemed := cp.times_redeemed + 1 })) :=
  c7_max_redemptions_not_enforced c7_wstate c6_payload "SAVE" cC
    { tenant_id := tA, code := "SAVE", percent_off := some 10,
      max_redemptions := some 1, times_redeemed := 5 }
    100 c7_witems
    (by decide) (by decide) (by with_unfolding_all decide) rfl (by decide)
    (by with_unfolding_all decide)

/-- A one-product store whose title is "AB", for the C8 counterexample. -/
def c8_products : List (String × Product) :=
  [(pB, { tenant_id := "t1", title := "AB", price := 1 })]

/-- C8 counterexample: the claim says a product is listed under query `q` if
and only if `q` is a case-insensitive substring of its title, for every
non-empty `q`.  But `list_products` hands `q` to the store as a regular
expression: under the query "." the product titled "AB" is returned (the
wildcard matches the letter A) although "." is not a substring of "AB" in any
case - the claimed equivalence fails for queries containing regex
metacharacters. -/
theorem c8_counterexample_dot_pattern :
    list_products c8_products "t1" (some ".") 100 = c8_products ∧
    ¬ containsCI "AB" "." := by
  refine ⟨by with_unfolding_all decide, by with_unfolding_all decide⟩

/-- C8 (amended): `q` is interpreted as a case-insensitive unanchored regular
expression over the title.  For a non-empty `q` free of regex metacharacters
(within the modelled fragment: no "." wildcard after case folding), and a
result set within the requested limit, a product is listed if and only if it
belongs to the collection, carries the requested tenant, and `q` is a
case-insensitive substring of its title. -/
theorem c8_literal_query_substring :
    ∀ (products : List (String × Product)) (tid q : String) (limit : ℕ)
      (pr : String × Product),
      q ≠ "" → literalPattern q = true →
      (products.filter (product_filter tid (some q))).length ≤ limit →
      (pr ∈ list_products products tid (some q) limit ↔
        pr ∈ products ∧ pr.2.tenant_id = tid ∧ containsCI pr.2.title q) := by
  intro products tid q limit pr hq hlit hlen
  unfold list_products
  rw [List.take_of_length_le hlen, List.mem_filter]
  simp only [product_filter, if_neg hq, Bool.and_eq_true, beq_iff_eq]
  rw [mongo_regex_literal q pr.2.title hlit]

/-- The product listed in the C8 witness store. -/
def c8_wpr : String × Product :=
  (pB, { tenant_id := "t1", title := "Blue Shirt", price := 1 })

/-- The C8 witness store: one product titled "Blue Shirt". -/
def c8_wproducts : List (String × Product) := [c8_wpr]

/-- Witness for C8 (amended): under the metacharacter-free query "shirt" the
product titled "Blue Shirt" is listed exactly because "shirt" is a
case-insensitive substring of its title. -/
theorem c8_witness :
    c8_wpr ∈ list_products c8_wproducts "t1" (some "shirt") 100 ↔
      c8_wpr ∈ c8_wproducts ∧ c8_wpr.2.tenant_id = "t1" ∧
        containsCI c8_wpr.2.title "shirt" :=
  c8_literal_query_substring c8_wproducts "t1" "shirt" 100 c8_wpr
    (by decide) (by with_unfolding_all decide) (by with_unfolding_all decide)

end DBM
